import Mathlib

/-!
Verification of the retro-skins-platform skin-to-config translation layer.

The data model and preset catalog are embedded from `src/engine/skins.ts`,
the command dispatch from `src/cli.ts`.  The four terminal adapters
(`src/engine/adapters/{wezterm,alacritty,kitty,windows-terminal}/index.ts`)
are not part of the sources available here; their behaviour is modelled from
the specification, as marked on each of those definitions.

Numbers that are decimal literals in the source (effect intensities and
effect parameters) are embedded as rationals.
-/

namespace RetroSkins

/-! ## String utilities (executable replacements for JS string primitives) -/

/-- ASCII lowercasing of a string, character by character; models the
JavaScript `toLowerCase()` calls in `src/cli.ts` (all compared keys are
ASCII). -/
def strToLower (s : String) : String := ⟨s.data.map Char.toLower⟩

/-- ASCII uppercasing of a string; models `toUpperCase()` in `src/cli.ts`. -/
def strToUpper (s : String) : String := ⟨s.data.map Char.toUpper⟩

/-- `chListPref p t` is `true` when the character list `p` is a prefix of `t`. -/
def chListPref : List Char → List Char → Bool
  | [], _ => true
  | _ :: _, [] => false
  | c :: cs, d :: ds => c == d && chListPref cs ds

/-- `containsSub t p` is `true` when `p` occurs as a contiguous sublist of `t`. -/
def containsSub : List Char → List Char → Bool
  | [], p => chListPref p []
  | c :: t, p => chListPref p (c :: t) || containsSub t p

/-- `strContains t s` is `true` when the string `s` occurs inside `t`. -/
def strContains (t s : String) : Bool := containsSub t.data s.data

/-! ## Data model — from `src/engine/skins.ts` -/

/-- The closed `EffectType` union of `skins.ts` (each constructor stands for
one hyphenated string literal of the source union). -/
inductive EffectType
  | crtScanlines
  | crtCurvature
  | crtFlicker
  | phosphorGlow
  | phosphorPersistence
  | shake
  | animatedBg
  | colorShift
  | vignette
  | noise
deriving DecidableEq

/-- The source string literal for an `EffectType` member. -/
def effectTypeName : EffectType → String
  | .crtScanlines => "crt-scanlines"
  | .crtCurvature => "crt-curvature"
  | .crtFlicker => "crt-flicker"
  | .phosphorGlow => "phosphor-glow"
  | .phosphorPersistence => "phosphor-persistence"
  | .shake => "shake"
  | .animatedBg => "animated-bg"
  | .colorShift => "color-shift"
  | .vignette => "vignette"
  | .noise => "noise"

/-- `VisualEffect` of `skins.ts`: a type, an intensity (0-1 per the doc
comment of the source), and a map from parameter names to numbers. -/
structure VisualEffect where
  type : EffectType
  intensity : ℚ
  params : List (String × ℚ)

/-- The optional 16-slot ANSI palette of `ColorScheme` in `skins.ts`. -/
structure Palette where
  black : String
  red : String
  green : String
  yellow : String
  blue : String
  purple : String
  cyan : String
  white : String
  brightBlack : String
  brightRed : String
  brightGreen : String
  brightYellow : String
  brightBlue : String
  brightPurple : String
  brightCyan : String
  brightWhite : String

/-- The 16 palette slots in the fixed order used by every adapter: the 8 base
slots then the 8 bright slots. -/
def paletteList (p : Palette) : List String :=
  [p.black, p.red, p.green, p.yellow, p.blue, p.purple, p.cyan, p.white,
   p.brightBlack, p.brightRed, p.brightGreen, p.brightYellow,
   p.brightBlue, p.brightPurple, p.brightCyan, p.brightWhite]

/-- `ColorScheme` of `skins.ts`. -/
structure ColorScheme where
  background : String
  foreground : String
  accent : String
  glow : String
  palette : Option Palette

/-- The `quality` union of `PerformanceConfig` in `skins.ts`. -/
inductive Quality
  | low
  | medium
  | high
deriving DecidableEq

/-- `PerformanceConfig` of `skins.ts`. -/
structure PerformanceConfig where
  gpuAcceleration : Bool
  targetFps : Nat
  quality : Quality

/-- `SkinConfig` of `skins.ts`. -/
structure SkinConfig where
  name : String
  effects : List VisualEffect
  colors : ColorScheme
  performance : PerformanceConfig

/-- The `Partial SkinConfig` argument type of `createSkin`. -/
structure PartialSkinConfig where
  name : Option String
  effects : Option (List VisualEffect)
  colors : Option ColorScheme
  performance : Option PerformanceConfig

/-- The default color scheme used by `createSkin` when `colors` is absent. -/
def defaultColors : ColorScheme :=
  { background := "#0D0208", foreground := "#00FF41",
    accent := "#008F11", glow := "#00FF41", palette := none }

/-- The default performance block used by `createSkin` when `performance` is
absent. -/
def defaultPerformance : PerformanceConfig :=
  { gpuAcceleration := true, targetFps := 60, quality := Quality.high }

/-- `createSkin` of `skins.ts`.  Each field is filled with `config.field ||
default` in the source; for `name` the JavaScript `||` also replaces a
supplied empty string (the only falsy string), while a supplied array or
object — even an empty array — is always truthy and therefore kept. -/
def createSkin (c : PartialSkinConfig) : SkinConfig :=
  { name := match c.name with
      | some n => if n = "" then "Default" else n
      | none => "Default",
    effects := c.effects.getD [],
    colors := c.colors.getD defaultColors,
    performance := c.performance.getD defaultPerformance }

/-! ## Preset catalog — `PRESET_SKINS` of `src/engine/skins.ts` -/

/-- The `phosphor` preset producer. -/
def phosphorSkin : SkinConfig := createSkin
  { name := some "Phosphor CRT",
    effects := some
      [⟨.crtScanlines, 0.4, [("lineSpacing", 2)]⟩,
       ⟨.phosphorGlow, 0.6, [("radius", 3), ("falloff", 0.5)]⟩,
       ⟨.phosphorPersistence, 0.3, [("decay", 0.1)]⟩,
       ⟨.crtFlicker, 0.1, [("frequency", 0.1)]⟩,
       ⟨.vignette, 0.5, [("radius", 0.8)]⟩],
    colors := some
      { background := "#0D0208", foreground := "#00FF41",
        accent := "#008F11", glow := "#00FF41",
        palette := some
          { black := "#0D0208", red := "#FF3333", green := "#00FF41",
            yellow := "#CCFF00", blue := "#008F11", purple := "#FF00FF",
            cyan := "#00FFFF", white := "#00FF41",
            brightBlack := "#1A1A1A", brightRed := "#FF6666",
            brightGreen := "#66FF66", brightYellow := "#FFFF66",
            brightBlue := "#66FF66", brightPurple := "#FF66FF",
            brightCyan := "#66FFFF", brightWhite := "#66FF66" } },
    performance := none }

/-- The `amber` preset producer. -/
def amberSkin : SkinConfig := createSkin
  { name := some "Amber Monochrome",
    effects := some
      [⟨.crtScanlines, 0.3, [("lineSpacing", 2)]⟩,
       ⟨.phosphorGlow, 0.5, [("radius", 2), ("falloff", 0.6)]⟩,
       ⟨.crtFlicker, 0.05, [("frequency", 0.05)]⟩,
       ⟨.vignette, 0.4, [("radius", 0.9)]⟩],
    colors := some
      { background := "#1A0F00", foreground := "#FFB000",
        accent := "#FF8C00", glow := "#FFB000",
        palette := some
          { black := "#1A0F00", red := "#FF6600", green := "#FFB000",
            yellow := "#FFCC00", blue := "#994400", purple := "#FF8800",
            cyan := "#FFAA00", white := "#FFB000",
            brightBlack := "#332200", brightRed := "#FF8800",
            brightGreen := "#FFCD00", brightYellow := "#FFDD66",
            brightBlue := "#AA6600", brightPurple := "#FF9900",
            brightCyan := "#FFDD88", brightWhite := "#FFEE99" } },
    performance := none }

/-- The `lcd` preset producer. -/
def lcdSkin : SkinConfig := createSkin
  { name := some "LCD Display",
    effects := some
      [⟨.crtScanlines, 0.2, [("lineSpacing", 1)]⟩,
       ⟨.phosphorGlow, 0.3, [("radius", 1), ("falloff", 0.8)]⟩,
       ⟨.colorShift, 0.1, [("shift", 0.02)]⟩,
       ⟨.vignette, 0.2, [("radius", 0.95)]⟩],
    colors := some
      { background := "#0A0A0A", foreground := "#E8E8E8",
        accent := "#A0A0A0", glow := "#FFFFFF",
        palette := some
          { black := "#0A0A0A", red := "#FF4444", green := "#44FF44",
            yellow := "#FFFF44", blue := "#4444FF", purple := "#FF44FF",
            cyan := "#44FFFF", white := "#E8E8E8",
            brightBlack := "#333333", brightRed := "#FF8888",
            brightGreen := "#88FF88", brightYellow := "#FFFF88",
            brightBlue := "#8888FF", brightPurple := "#FF88FF",
            brightCyan := "#88FFFF", brightWhite := "#FFFFFF" } },
    performance := none }

/-- The `cyber` preset producer. -/
def cyberSkin : SkinConfig := createSkin
  { name := some "Cyber Purple",
    effects := some
      [⟨.crtScanlines, 0.35, [("lineSpacing", 2)]⟩,
       ⟨.phosphorGlow, 0.7, [("radius", 4), ("falloff", 0.4)]⟩,
       ⟨.crtFlicker, 0.08, [("frequency", 0.08)]⟩,
       ⟨.animatedBg, 0.3, [("speed", 0.5)]⟩,
       ⟨.noise, 0.05, [("amount", 0.02)]⟩],
    colors := some
      { background := "#0D0D1A", foreground := "#B388FF",
        accent := "#7C4DFF", glow := "#E040FB",
        palette := some
          { black := "#0D0D1A", red := "#FF0055", green := "#00FF66",
            yellow := "#FFFF00", blue := "#0085FF", purple := "#B388FF",
            cyan := "#00FFFF", white := "#E0E0FF",
            brightBlack := "#2A2A3A", brightRed := "#FF4488",
            brightGreen := "#66FF99", brightYellow := "#FFFF66",
            brightBlue := "#6699FF", brightPurple := "#D199FF",
            brightCyan := "#99FFFF", brightWhite := "#FFFFFF" } },
    performance := none }

/-- The `terminal` preset producer. -/
def terminalSkin : SkinConfig := createSkin
  { name := some "Classic Terminal",
    effects := some
      [⟨.crtScanlines, 0.25, [("lineSpacing", 2)]⟩,
       ⟨.phosphorGlow, 0.4, [("radius", 2), ("falloff", 0.5)]⟩,
       ⟨.vignette, 0.3, [("radius", 0.85)]⟩],
    colors := some
      { background := "#0C0C14", foreground := "#4AF626",
        accent := "#2AAE22", glow := "#4AF626",
        palette := some
          { black := "#0C0C14", red := "#CC3333", green := "#4AF626",
            yellow := "#CCFF00", blue := "#0066CC", purple := "#FF00FF",
            cyan := "#00CCFF", white := "#4AF626",
            brightBlack := "#1A1A2A", brightRed := "#FF6666",
            brightGreen := "#88FF88", brightYellow := "#FFFF66",
            brightBlue := "#6699FF", brightPurple := "#FF66FF",
            brightCyan := "#66FFFF", brightWhite := "#99FF99" } },
    performance := none }

/-- The `puncore` preset producer. -/
def puncoreSkin : SkinConfig := createSkin
  { name := some "Puncore Neon",
    effects := some
      [⟨.crtScanlines, 0.1, [("lineSpacing", 1)]⟩,
       ⟨.phosphorGlow, 0.5, [("radius", 3), ("falloff", 0.4)]⟩,
       ⟨.vignette, 0.15, [("radius", 0.95)]⟩],
    colors := some
      { background := "#575757", foreground := "#858585",
        accent := "#FF5700", glow := "#8500FF",
        palette := some
          { black := "#575757", red := "#FF0085", green := "#00FF00",
            yellow := "#FF5700", blue := "#0085FF", purple := "#8500FF",
            cyan := "#0085FF", white := "#858585",
            brightBlack := "#313131", brightRed := "#FF0085",
            brightGreen := "#00FF00", brightYellow := "#FF8500",
            brightBlue := "#0085FF", brightPurple := "#8500FF",
            brightCyan := "#00FFFF", brightWhite := "#FFFFFF" } },
    performance := none }

/-- The keys of `PRESET_SKINS`, in declaration order. -/
def presetKeys : List String :=
  ["phosphor", "amber", "lcd", "cyber", "terminal", "puncore"]

/-- What the JavaScript bracket lookup `PRESET_SKINS[skinName]` can yield:
one of the six own properties (a zero-argument skin producer), a truthy
value inherited from `Object.prototype` (not a skin producer), or
`undefined` — the only falsy outcome. -/
inductive PresetLookup
  | producer (s : SkinConfig)
  | inherited
  | absent

/-- The `Object.prototype` property names a plain object literal inherits;
a bracket lookup at any of these is truthy even though `PRESET_SKINS`
declares none of them. -/
def protoKeys : List String :=
  ["__proto__", "constructor", "toString", "toLocaleString", "valueOf",
   "hasOwnProperty", "isPrototypeOf", "propertyIsEnumerable",
   "__defineGetter__", "__defineSetter__", "__lookupGetter__",
   "__lookupSetter__"]

/-- Keyed access to `PRESET_SKINS` (`PRESET_SKINS[skinName]` in `cli.ts`).
A catalog key hits its own property (invoking the producer is value copying
here); an `Object.prototype` name hits an inherited truthy non-producer;
every other key yields `undefined`. -/
def lookupPreset (k : String) : PresetLookup :=
  if k = "phosphor" then PresetLookup.producer phosphorSkin
  else if k = "amber" then PresetLookup.producer amberSkin
  else if k = "lcd" then PresetLookup.producer lcdSkin
  else if k = "cyber" then PresetLookup.producer cyberSkin
  else if k = "terminal" then PresetLookup.producer terminalSkin
  else if k = "puncore" then PresetLookup.producer puncoreSkin
  else if protoKeys.contains k then PresetLookup.inherited
  else PresetLookup.absent

/-! ## Color validation and palette derivation

The adapter sources (`src/engine/adapters/.../index.ts`) are not available;
everything from here to the CLI section is modelled from the spec. -/

/-- `true` when `c` is one of `0-9`, `A-F`, `a-f`. -/
def isHexDigitChar (c : Char) : Bool :=
  (48 ≤ c.toNat && c.toNat ≤ 57) ||
  (65 ≤ c.toNat && c.toNat ≤ 70) ||
  (97 ≤ c.toNat && c.toNat ≤ 102)

/-- Modelled from the spec: the color validity test shared by the four
missing adapters — a color is well formed exactly when it matches
the pattern of a `#` followed by six hexadecimal digits. -/
def validHexColor (s : String) : Bool :=
  match s.data with
  | '#' :: rest => rest.length == 6 && rest.all isHexDigitChar
  | _ => false

/-- Numeric value of a hexadecimal digit character (0 for non-digits; only
applied to characters accepted by `isHexDigitChar`). -/
def hexDigitVal (c : Char) : Nat :=
  if 48 ≤ c.toNat && c.toNat ≤ 57 then c.toNat - 48
  else if 65 ≤ c.toNat && c.toNat ≤ 70 then c.toNat - 55
  else if 97 ≤ c.toNat && c.toNat ≤ 102 then c.toNat - 87
  else 0

/-- Parse `#RRGGBB` into its three channel values; `none` when the string
does not match the pattern. -/
def parseHexColor (s : String) : Option (Nat × Nat × Nat) :=
  match s.data with
  | ['#', r1, r2, g1, g2, b1, b2] =>
    if [r1, r2, g1, g2, b1, b2].all isHexDigitChar then
      some (16 * hexDigitVal r1 + hexDigitVal r2,
            16 * hexDigitVal g1 + hexDigitVal g2,
            16 * hexDigitVal b1 + hexDigitVal b2)
    else none
  | _ => none

/-- Uppercase hexadecimal digit character for a value below 16. -/
def toHexDigitChar (n : Nat) : Char :=
  if n < 10 then Char.ofNat (48 + n) else Char.ofNat (55 + n)

/-- Render three channel values (each below 256) as `#RRGGBB`. -/
def rgbToHex (r g b : Nat) : String :=
  ⟨['#', toHexDigitChar (r / 16), toHexDigitChar (r % 16),
        toHexDigitChar (g / 16), toHexDigitChar (g % 16),
        toHexDigitChar (b / 16), toHexDigitChar (b % 16)]⟩

/-- One channel linearly interpolated toward white by the fixed factor 2/5
(the 0.4 named in the spec), with the fractional part dropped. -/
def lerpWhiteChannel (c : Nat) : Nat := c + 2 * (255 - c) / 5

/-- Modelled from the spec: the bright variant of a base color — each
channel interpolated toward white by the fixed factor 0.4.  Colors that do
not parse are returned unchanged (the derivation is only reached once every
consumed color has been validated). -/
def brighten (s : String) : String :=
  match parseHexColor s with
  | some (r, g, b) =>
    rgbToHex (lerpWhiteChannel r) (lerpWhiteChannel g) (lerpWhiteChannel b)
  | none => s

/-- Modelled from the spec: the palette-derivation fallback for skins
without an explicit 16-slot palette, absent from the sources and flagged by
the spec as defined only by example — the 8 base slots come from the scheme
(black from `background`, white from `foreground`, purple from `accent`) and
a small literal hue set, and each bright slot is its base slot interpolated
toward white by the fixed factor 0.4. -/
def derivePalette (cs : ColorScheme) : List String :=
  let base := [cs.background, "#CC3333", "#33CC33", "#CCCC33",
               "#3333CC", cs.accent, "#33CCCC", cs.foreground]
  base ++ base.map brighten

/-- The ordered 16 ANSI slot colors an adapter emits: the explicit palette
when the skin has one, otherwise the derived fallback palette. -/
def paletteOrDerived (s : SkinConfig) : List String :=
  match s.colors.palette with
  | some p => paletteList p
  | none => derivePalette s.colors

/-- Modelled from the spec: the color strings an adapter consumes —
`background`, `foreground`, and either the 16 explicit palette slots or (on
the fallback path) the `accent` seed of the derivation. -/
def consumedColors (s : SkinConfig) : List String :=
  s.colors.background :: s.colors.foreground ::
    (match s.colors.palette with
     | some p => paletteList p
     | none => [s.colors.accent])

/-! ## The four adapters — modelled from the spec -/

/-- The error signalled by an adapter on a malformed color. -/
inductive AdapterError
  | malformedColor
deriving DecidableEq

/-- Modelled from the spec: the shared validate-then-emit shape of every
adapter — all consumed colors are checked against the `#RRGGBB` pattern, and
only when every one passes is any output produced. -/
def renderChecked (body : SkinConfig → String) (s : SkinConfig) :
    Except AdapterError String :=
  if (consumedColors s).all validHexColor then Except.ok (body s)
  else Except.error AdapterError.malformedColor

/-- A color wrapped in single quotes, as the Lua and YAML formats print it. -/
def quoteSingle (c : String) : String := "'" ++ c ++ "'"

/-- Modelled from the spec: the Lua document of the missing WezTerm adapter
(`generateWezTermLua`) — a `colors` table with foreground/background, a
cursor and selection pair reusing them, an `ansi` block listing the 16
palette slots in the fixed order, and a closing `return config` trailer. -/
def weztermBody (s : SkinConfig) : String :=
  String.intercalate "\n"
    ["-- Retro Skin: " ++ s.name,
     "local wezterm = require 'wezterm'",
     "local config = \x7b\x7d",
     "",
     "local colors = \x7b",
     "  foreground = '" ++ s.colors.foreground ++ "',",
     "  background = '" ++ s.colors.background ++ "',",
     "  cursor_bg = '" ++ s.colors.foreground ++ "',",
     "  cursor_fg = '" ++ s.colors.background ++ "',",
     "  selection_bg = '" ++ s.colors.foreground ++ "',",
     "  selection_fg = '" ++ s.colors.background ++ "',",
     "  ansi = \x7b " ++
       String.intercalate ", " ((paletteOrDerived s).map quoteSingle) ++
       " \x7d,",
     "\x7d",
     "",
     "config.colors = colors",
     "return config"]

/-- The conventional Alacritty key names of the 8 base ANSI slots. -/
def alacrittySlotNames : List String :=
  ["black", "red", "green", "yellow", "blue", "magenta", "cyan", "white"]

/-- The 8 bright palette entries the YAML adapter emits under `bright:`. -/
def alacrittyBrights (s : SkinConfig) : List String :=
  (paletteOrDerived s).drop 8

/-- Modelled from the spec: the YAML document of the missing Alacritty
adapter (`generateAlacrittyYaml`) — a top-level `colors:` mapping holding
`primary:` (background/foreground), `cursor:`, `selection:`, `normal:` with
the 8 base slots, and `bright:` with the 8 bright slots. -/
def alacrittyBody (s : SkinConfig) : String :=
  String.intercalate "\n"
    (["# Retro Skin: " ++ s.name,
      "colors:",
      "  primary:",
      "    background: '" ++ s.colors.background ++ "'",
      "    foreground: '" ++ s.colors.foreground ++ "'",
      "  cursor:",
      "    cursor: '" ++ s.colors.foreground ++ "'",
      "    text: '" ++ s.colors.background ++ "'",
      "  selection:",
      "    background: '" ++ s.colors.foreground ++ "'",
      "    foreground: '" ++ s.colors.background ++ "'",
      "  normal:"] ++
     (List.zipWith (fun n c => "    " ++ n ++ ": '" ++ c ++ "'")
        alacrittySlotNames ((paletteOrDerived s).take 8)) ++
     ["  bright:"] ++
     (List.zipWith (fun n c => "    " ++ n ++ ": '" ++ c ++ "'")
        alacrittySlotNames (alacrittyBrights s)))

/-- The `color0` .. `color15` key names of the flat Kitty format. -/
def kittyColorNames : List String :=
  ["color0", "color1", "color2", "color3", "color4", "color5", "color6",
   "color7", "color8", "color9", "color10", "color11", "color12", "color13",
   "color14", "color15"]

/-- Modelled from the spec: the flat key-value document of the missing Kitty
adapter (`generateKittyConfig`) — `background`, `foreground`, `cursor`,
`selection_background`, `selection_foreground`, then `color0` .. `color15`
in the fixed slot order. -/
def kittyBody (s : SkinConfig) : String :=
  String.intercalate "\n"
    (["# Retro Skin: " ++ s.name,
      "background " ++ s.colors.background,
      "foreground " ++ s.colors.foreground,
      "cursor " ++ s.colors.foreground,
      "selection_background " ++ s.colors.foreground,
      "selection_foreground " ++ s.colors.background] ++
     (List.zipWith (fun n c => n ++ " " ++ c)
        kittyColorNames (paletteOrDerived s)))

/-- The Windows Terminal scheme key names of the 16 ANSI slots. -/
def wtSlotNames : List String :=
  ["black", "red", "green", "yellow", "blue", "purple", "cyan", "white",
   "brightBlack", "brightRed", "brightGreen", "brightYellow",
   "brightBlue", "brightPurple", "brightCyan", "brightWhite"]

/-- Modelled from the spec: the JSON document of the missing Windows
Terminal adapter (`generateWindowsTerminalJson`) — a `"schemes"` array with
one scheme object carrying `"name"`, `"background"`, `"foreground"` and the
16 ANSI-named keys. -/
def windowsTerminalBody (s : SkinConfig) : String :=
  String.intercalate "\n"
    (["\x7b",
      "  \"schemes\": [",
      "    \x7b",
      "      \"name\": \"" ++ s.name ++ "\",",
      "      \"background\": \"" ++ s.colors.background ++ "\",",
      "      \"foreground\": \"" ++ s.colors.foreground ++ "\","] ++
     [String.intercalate ",\n"
        (List.zipWith (fun n c => "      \"" ++ n ++ "\": \"" ++ c ++ "\"")
           wtSlotNames (paletteOrDerived s))] ++
     ["    \x7d",
      "  ]",
      "\x7d"])

/-- Modelled from the spec: `generateWezTermLua` of the missing WezTerm
adapter. -/
def generateWezTermLua : SkinConfig → Except AdapterError String :=
  renderChecked weztermBody

/-- Modelled from the spec: `generateAlacrittyYaml` of the missing Alacritty
adapter. -/
def generateAlacrittyYaml : SkinConfig → Except AdapterError String :=
  renderChecked alacrittyBody

/-- Modelled from the spec: `generateKittyConfig` of the missing Kitty
adapter. -/
def generateKittyConfig : SkinConfig → Except AdapterError String :=
  renderChecked kittyBody

/-- Modelled from the spec: `generateWindowsTerminalJson` of the missing
Windows Terminal adapter. -/
def generateWindowsTerminalJson : SkinConfig → Except AdapterError String :=
  renderChecked windowsTerminalBody

/-- The closed set of the four adapters. -/
inductive AdapterKind
  | wezterm
  | alacritty
  | windowsTerminal
  | kitty
deriving DecidableEq

/-- The render operation of each adapter. -/
def renderAdapter : AdapterKind → SkinConfig → Except AdapterError String
  | .wezterm => generateWezTermLua
  | .alacritty => generateAlacrittyYaml
  | .windowsTerminal => generateWindowsTerminalJson
  | .kitty => generateKittyConfig

/-! ## CLI dispatch — from `src/cli.ts` -/

/-- `VALID_TERMINALS` of `cli.ts`. -/
def VALID_TERMINALS : List String :=
  ["wezterm", "alacritty", "kitty", "windows-terminal"]

/-- The observable outcome of one CLI command: the text it prints on
success, or a non-zero exit code with the `console.error` line. -/
inductive CliOutcome
  | ok (text : String)
  | err (code : Nat) (message : String)
deriving DecidableEq

/-- `true` exactly on the `err` outcome (a `process.exit(1)` path). -/
def CliOutcome.isErr : CliOutcome → Bool
  | .ok _ => false
  | .err _ _ => true

/-- The if-chain both `preview` and `generate` use to pick an adapter from
the lowercased terminal name; every name other than `wezterm`, `alacritty`
and `windows-terminal` falls through to the Kitty adapter. -/
def pickAdapter (tl : String) : AdapterKind :=
  if tl = "wezterm" then AdapterKind.wezterm
  else if tl = "alacritty" then AdapterKind.alacritty
  else if tl = "windows-terminal" then AdapterKind.windowsTerminal
  else AdapterKind.kitty

/-- The color/effect summary block the `preview` action prints for a skin
(`cli.ts` lines 51-57). -/
def previewSummary (key : String) (s : SkinConfig) : String :=
  String.intercalate "\n"
    ["🎨 " ++ s.name ++ " (" ++ key ++ ")",
     "   Colors:",
     "     Background: " ++ s.colors.background,
     "     Foreground: " ++ s.colors.foreground,
     "     Accent:     " ++ s.colors.accent,
     "     Glow:       " ++ s.colors.glow,
     "   Effects: " ++
       String.intercalate ", " (s.effects.map (fun e => effectTypeName e.type))]

/-- The `📄 ... Preview:` header and separator line the `preview` action
prints before a terminal-specific config (`cli.ts` lines 59-60). -/
def previewHeader (t : String) : String :=
  "\n📄 " ++ strToUpper t ++ " Preview:\n" ++
    String.mk (List.replicate 40 '─') ++ "\n"

/-- The `generate <terminal> <skin>` action of `cli.ts` (stdout path): the
terminal is validated against `VALID_TERMINALS` first, then the preset key
is looked up.  Only an `undefined` lookup (falsy) takes the `Unknown skin`
branch; a truthy inherited `Object.prototype` value passes the `!skinFn`
guard and the subsequent invocation or field access throws an uncaught
`TypeError` (non-zero exit, no `Unknown skin` text).  An adapter error
surfaces as an uncaught `MalformedColorError` (non-zero exit). -/
def generateCmd (terminal skinName : String) : CliOutcome :=
  if VALID_TERMINALS.contains (strToLower terminal) = false then
    CliOutcome.err 1 ("❌ Invalid terminal: " ++ terminal)
  else
    match lookupPreset skinName with
    | PresetLookup.absent => CliOutcome.err 1 ("❌ Unknown skin: " ++ skinName)
    | PresetLookup.inherited => CliOutcome.err 1 "TypeError"
    | PresetLookup.producer skin =>
      match renderAdapter (pickAdapter (strToLower terminal)) skin with
      | Except.ok cfg => CliOutcome.ok cfg
      | Except.error _ => CliOutcome.err 1 "MalformedColorError"

/-- The `preview [skin]` action of `cli.ts` for a given skin name: only an
`undefined` lookup (falsy) exits with `Unknown skin`; an inherited
`Object.prototype` value passes the guard and crashes with an uncaught
`TypeError`.  The optional `--terminal` value is never validated — its
lowercased form drops into the same adapter if-chain, whose final `else` is
the Kitty adapter. -/
def previewCmd (skinName : String) (terminalOpt : Option String) :
    CliOutcome :=
  match lookupPreset skinName with
  | PresetLookup.absent => CliOutcome.err 1 ("❌ Unknown skin: " ++ skinName)
  | PresetLookup.inherited => CliOutcome.err 1 "TypeError"
  | PresetLookup.producer skin =>
    match terminalOpt with
    | none => CliOutcome.ok (previewSummary skinName skin)
    | some t =>
      match renderAdapter (pickAdapter (strToLower t)) skin with
      | Except.ok cfg =>
        CliOutcome.ok (previewSummary skinName skin ++ previewHeader t ++ cfg)
      | Except.error _ => CliOutcome.err 1 "MalformedColorError"

/-- The six preset skins, in catalog order (what invoking every producer of
`PRESET_SKINS` yields). -/
def allPresetSkins : List SkinConfig :=
  [phosphorSkin, amberSkin, lcdSkin, cyberSkin, terminalSkin, puncoreSkin]

set_option maxRecDepth 100000

/-! ## Helper lemmas -/

theorem stringData_append (a b : String) : (a ++ b).data = a.data ++ b.data := by
  cases a
  cases b
  rfl

theorem chListPref_append (p l r : List Char) (h : chListPref p l = true) :
    chListPref p (l ++ r) = true := by
  induction p generalizing l with
  | nil => rfl
  | cons c cs ih =>
    cases l with
    | nil => simp [chListPref] at h
    | cons d ds =>
      simp only [chListPref, Bool.and_eq_true] at h
      simp only [List.cons_append, chListPref, Bool.and_eq_true]
      exact ⟨h.1, ih ds h.2⟩

theorem containsSub_empty_pat (t : List Char) : containsSub t [] = true := by
  cases t <;> simp [containsSub, chListPref]

theorem containsSub_append (l r p : List Char) (h : containsSub l p = true) :
    containsSub (l ++ r) p = true := by
  induction l with
  | nil =>
    cases p with
    | nil => exact containsSub_empty_pat r
    | cons c cs => simp [containsSub, chListPref] at h
  | cons c l' ih =>
    simp only [containsSub, Bool.or_eq_true] at h
    simp only [List.cons_append, containsSub, Bool.or_eq_true]
    rcases h with h | h
    · exact Or.inl (chListPref_append _ _ _ h)
    · exact Or.inr (ih h)

theorem strContains_append (a b f : String) (h : strContains a f = true) :
    strContains (a ++ b) f = true := by
  unfold strContains at h ⊢
  rw [stringData_append]
  exact containsSub_append _ _ _ h

theorem previewCmd_unknown_terminal (k t : String) (s : SkinConfig)
    (hl : lookupPreset k = PresetLookup.producer s)
    (hv : (consumedColors s).all validHexColor = true)
    (h1 : strToLower t ≠ "wezterm") (h2 : strToLower t ≠ "alacritty")
    (h3 : strToLower t ≠ "windows-terminal") :
    previewCmd k (some t) =
      CliOutcome.ok (previewSummary k s ++ previewHeader t ++ kittyBody s) := by
  have hp : pickAdapter (strToLower t) = AdapterKind.kitty := by
    unfold pickAdapter
    rw [if_neg h1, if_neg h2, if_neg h3]
  simp only [previewCmd, hl, hp, renderAdapter, generateKittyConfig,
    renderChecked, hv, if_true]

/-! ## Claim theorems -/

/-- C1: for every valid `SkinConfig` `s` and each of the four adapters,
repeated calls of `render(s)` yield byte-identical text — in this embedding
each adapter is a pure function of the `SkinConfig`, so the two renders are
definitionally the same. -/
theorem adapter_render_deterministic (a : AdapterKind) (s : SkinConfig)
    (_hv : (consumedColors s).all validHexColor = true) :
    renderAdapter a s = renderAdapter a s := rfl

theorem adapter_render_deterministic_witness :
    (consumedColors phosphorSkin).all validHexColor = true ∧
    renderAdapter AdapterKind.wezterm phosphorSkin =
      renderAdapter AdapterKind.wezterm phosphorSkin :=
  ⟨by decide,
   adapter_render_deterministic AdapterKind.wezterm phosphorSkin (by decide)⟩

/-- C2: every adapter raises `MalformedColorError` (with no output) as soon
as some consumed color misses the `#RRGGBB` pattern, and never raises it
when every consumed color matches. -/
theorem adapter_color_validation (a : AdapterKind) (s : SkinConfig) :
    ((∃ c ∈ consumedColors s, validHexColor c = false) →
      renderAdapter a s = Except.error AdapterError.malformedColor) ∧
    ((∀ c ∈ consumedColors s, validHexColor c = true) →
      ∃ out, renderAdapter a s = Except.ok out) := by
  constructor
  · rintro ⟨c, hc, hcv⟩
    have hall : (consumedColors s).all validHexColor = false := by
      cases hb : (consumedColors s).all validHexColor with
      | false => rfl
      | true => rw [List.all_eq_true] at hb; rw [hb c hc] at hcv; cases hcv
    cases a <;>
      simp [renderAdapter, generateWezTermLua, generateAlacrittyYaml,
        generateWindowsTerminalJson, generateKittyConfig, renderChecked, hall]
  · intro hgood
    have hall : (consumedColors s).all validHexColor = true :=
      List.all_eq_true.mpr hgood
    cases a
    · exact ⟨weztermBody s,
        by simp [renderAdapter, generateWezTermLua, renderChecked, hall]⟩
    · exact ⟨alacrittyBody s,
        by simp [renderAdapter, generateAlacrittyYaml, renderChecked, hall]⟩
    · exact ⟨windowsTerminalBody s,
        by simp [renderAdapter, generateWindowsTerminalJson, renderChecked, hall]⟩
    · exact ⟨kittyBody s,
        by simp [renderAdapter, generateKittyConfig, renderChecked, hall]⟩

theorem adapter_color_validation_witness :
    (∃ out, renderAdapter AdapterKind.wezterm phosphorSkin = Except.ok out) ∧
    renderAdapter AdapterKind.kitty
        (createSkin ⟨some "Bad", none,
          some { background := "red", foreground := "#00FF41",
                 accent := "#008F11", glow := "#00FF41", palette := none },
          none⟩) =
      Except.error AdapterError.malformedColor :=
  ⟨(adapter_color_validation AdapterKind.wezterm phosphorSkin).2 (by decide),
   (adapter_color_validation AdapterKind.kitty _).1
     ⟨"red", by decide, by decide⟩⟩

/-- C3: each of the six catalog keys produces a fully-populated
`SkinConfig` with a non-empty effect list and an explicit palette whose 16
slots all match `#RRGGBB`. -/
theorem preset_catalog_complete :
    ∀ k ∈ presetKeys, ∃ s, lookupPreset k = PresetLookup.producer s ∧
      s.effects.isEmpty = false ∧
      ∃ p, s.colors.palette = some p ∧ (paletteList p).length = 16 ∧
        ∀ c ∈ paletteList p, validHexColor c = true := by
  intro k hk
  simp only [presetKeys, List.mem_cons, List.not_mem_nil, or_false] at hk
  rcases hk with rfl | rfl | rfl | rfl | rfl | rfl
  · exact ⟨phosphorSkin, rfl, rfl, _, rfl, rfl, by decide⟩
  · exact ⟨amberSkin, rfl, rfl, _, rfl, rfl, by decide⟩
  · exact ⟨lcdSkin, rfl, rfl, _, rfl, rfl, by decide⟩
  · exact ⟨cyberSkin, rfl, rfl, _, rfl, rfl, by decide⟩
  · exact ⟨terminalSkin, rfl, rfl, _, rfl, rfl, by decide⟩
  · exact ⟨puncoreSkin, rfl, rfl, _, rfl, rfl, by decide⟩

theorem preset_catalog_complete_witness :
    ∃ s, lookupPreset "phosphor" = PresetLookup.producer s ∧
      s.effects.isEmpty = false ∧
      ∃ p, s.colors.palette = some p ∧ (paletteList p).length = 16 ∧
        ∀ c ∈ paletteList p, validHexColor c = true :=
  preset_catalog_complete "phosphor" (by decide)

/-- C4 counterexample: `createSkin` does not return every supplied field
unchanged — a supplied empty-string name is falsy under the JavaScript `||`
and is replaced by `'Default'`. -/
theorem createSkin_preserves_supplied_false :
    (createSkin ⟨some "", none, none, none⟩).name = "Default" ∧
    ("Default" : String) ≠ "" := by
  exact ⟨rfl, by decide⟩

/-- C4 (amended): `createSkin` is total, fills every omitted field with its
documented default, and returns every supplied field unchanged — except
that a supplied empty-string name (falsy in JavaScript) is replaced by
`'Default'`. -/
theorem createSkin_total_defaults (c : PartialSkinConfig) :
    ((c.name = none ∨ c.name = some "") → (createSkin c).name = "Default") ∧
    (∀ n, c.name = some n → n ≠ "" → (createSkin c).name = n) ∧
    (c.effects = none → (createSkin c).effects = []) ∧
    (∀ es, c.effects = some es → (createSkin c).effects = es) ∧
    (c.colors = none → (createSkin c).colors = defaultColors) ∧
    (∀ cs, c.colors = some cs → (createSkin c).colors = cs) ∧
    (c.performance = none → (createSkin c).performance = defaultPerformance) ∧
    (∀ p, c.performance = some p → (createSkin c).performance = p) := by
  refine ⟨?_, ?_, ?_, ?_, ?_, ?_, ?_, ?_⟩
  · rintro (h | h) <;> simp [createSkin, h]
  · intro n hn hne
    simp [createSkin, hn, hne]
  · intro h; simp [createSkin, h]
  · intro es h; simp [createSkin, h]
  · intro h; simp [createSkin, h]
  · intro cs h; simp [createSkin, h]
  · intro h; simp [createSkin, h]
  · intro p h; simp [createSkin, h]

theorem createSkin_total_defaults_witness :
    (createSkin ⟨none, none, none, none⟩).name = "Default" ∧
    (createSkin ⟨some "My Skin", none, none, none⟩).name = "My Skin" ∧
    (createSkin ⟨none, none, none, none⟩).effects = [] ∧
    (createSkin ⟨none, none, none, none⟩).colors = defaultColors ∧
    (createSkin ⟨none, none, none, none⟩).performance = defaultPerformance :=
  ⟨(createSkin_total_defaults _).1 (Or.inl rfl),
   (createSkin_total_defaults _).2.1 "My Skin" rfl (by decide),
   (createSkin_total_defaults _).2.2.1 rfl,
   (createSkin_total_defaults _).2.2.2.2.1 rfl,
   (createSkin_total_defaults _).2.2.2.2.2.2.1 rfl⟩

/-- C5: rendering the `phosphor` preset with the WezTerm/Lua adapter
succeeds and the document contains the literal foreground `#00FF41`, the
literal background `#0D0208`, an `ansi` table carrying the 16 palette
slots, and the closing `return config` trailer. -/
theorem wezterm_phosphor_scenario :
    generateWezTermLua phosphorSkin = Except.ok (weztermBody phosphorSkin) ∧
    strContains (weztermBody phosphorSkin) "#00FF41" = true ∧
    strContains (weztermBody phosphorSkin) "#0D0208" = true ∧
    strContains (weztermBody phosphorSkin) "ansi = \x7b" = true ∧
    (paletteOrDerived phosphorSkin).length = 16 ∧
    strContains (weztermBody phosphorSkin) "return config" = true := by
  refine ⟨?_, by decide, by decide, by decide, by decide, by decide⟩
  show renderChecked weztermBody phosphorSkin = _
  rw [renderChecked, if_pos (by decide)]

/-- C6: rendering the `amber` preset with the Alacritty/YAML adapter
succeeds and the document contains a top-level `colors:` key, a nested
`primary:` key with `background: '#1A0F00'`, and a `bright:` key carrying 8
entries. -/
theorem alacritty_amber_scenario :
    generateAlacrittyYaml amberSkin = Except.ok (alacrittyBody amberSkin) ∧
    strContains (alacrittyBody amberSkin) "colors:" = true ∧
    strContains (alacrittyBody amberSkin) "primary:" = true ∧
    strContains (alacrittyBody amberSkin) "background: '#1A0F00'" = true ∧
    strContains (alacrittyBody amberSkin) "bright:" = true ∧
    (alacrittyBrights amberSkin).length = 8 := by
  refine ⟨?_, by decide, by decide, by decide, by decide, by decide⟩
  show renderChecked alacrittyBody amberSkin = _
  rw [renderChecked, if_pos (by decide)]

/-- C7 counterexample: two CLI invocations falsify the claim.  The
`preview` command takes a target key through its `--terminal` option, yet
the unknown target `emacs` is not rejected — the invocation exits zero.
And the unknown preset key `__proto__` is an inherited `Object.prototype`
property, so the truthiness guard passes and `generate` dies with an
uncaught `TypeError` whose text does not contain `Unknown skin`. -/
theorem cli_unknown_target_not_always_rejected :
    (VALID_TERMINALS.contains (strToLower "emacs") = false ∧
     CliOutcome.isErr (previewCmd "phosphor" (some "emacs")) = false) ∧
    (lookupPreset "__proto__" = PresetLookup.inherited ∧
     ("__proto__" ∈ presetKeys) = False ∧
     generateCmd "wezterm" "__proto__" = CliOutcome.err 1 "TypeError" ∧
     strContains "TypeError" "Unknown skin" = false) := by
  refine ⟨by decide, rfl, ?_, by decide, by decide⟩
  simp [presetKeys]

/-- C7 (amended): the `generate` command rejects an unknown target with a
non-zero exit whose message contains `Invalid terminal`.  For `generate`
(with a valid target) and `preview`, a preset key that is neither a catalog
key nor an inherited `Object.prototype` property exits non-zero with a
message containing `Unknown skin`; a preset key naming an
`Object.prototype` property passes the truthiness guard instead and crashes
with an uncaught `TypeError` carrying no `Unknown skin` text.  The message
heads are distinct from each other and from the color-format error; the
`preview` command's `--terminal` option, however, is never validated. -/
theorem cli_error_messages :
    (∀ t s, VALID_TERMINALS.contains (strToLower t) = false →
      generateCmd t s = CliOutcome.err 1 ("❌ Invalid terminal: " ++ t) ∧
      strContains ("❌ Invalid terminal: " ++ t) "Invalid terminal" = true) ∧
    (∀ t k, VALID_TERMINALS.contains (strToLower t) = true →
      lookupPreset k = PresetLookup.absent →
      generateCmd t k = CliOutcome.err 1 ("❌ Unknown skin: " ++ k) ∧
      strContains ("❌ Unknown skin: " ++ k) "Unknown skin" = true) ∧
    (∀ k topt, lookupPreset k = PresetLookup.absent →
      previewCmd k topt = CliOutcome.err 1 ("❌ Unknown skin: " ++ k)) ∧
    (∀ t k, VALID_TERMINALS.contains (strToLower t) = true →
      lookupPreset k = PresetLookup.inherited →
      generateCmd t k = CliOutcome.err 1 "TypeError" ∧
      strContains "TypeError" "Unknown skin" = false) ∧
    (∀ k topt, lookupPreset k = PresetLookup.inherited →
      previewCmd k topt = CliOutcome.err 1 "TypeError") ∧
    (strContains "❌ Invalid terminal: " "Unknown skin" = false ∧
     strContains "❌ Unknown skin: " "Invalid terminal" = false ∧
     strContains "❌ Invalid terminal: " "MalformedColorError" = false ∧
     strContains "❌ Unknown skin: " "MalformedColorError" = false) := by
  refine ⟨?_, ?_, ?_, ?_, ?_, by decide, by decide, by decide, by decide⟩
  · intro t s h
    refine ⟨?_, strContains_append _ _ _ (by decide)⟩
    unfold generateCmd
    rw [if_pos h]
  · intro t k hv hk
    refine ⟨?_, strContains_append _ _ _ (by decide)⟩
    unfold generateCmd
    rw [if_neg (fun hfalse => Bool.noConfusion (hv ▸ hfalse)), hk]
  · intro k topt hk
    simp [previewCmd, hk]
  · intro t k hv hk
    refine ⟨?_, by decide⟩
    unfold generateCmd
    rw [if_neg (fun hfalse => Bool.noConfusion (hv ▸ hfalse)), hk]
  · intro k topt hk
    simp [previewCmd, hk]

theorem cli_error_messages_witness :
    generateCmd "emacs" "phosphor" =
      CliOutcome.err 1 ("❌ Invalid terminal: " ++ "emacs") ∧
    generateCmd "wezterm" "nosuch" =
      CliOutcome.err 1 ("❌ Unknown skin: " ++ "nosuch") ∧
    previewCmd "nosuch" none =
      CliOutcome.err 1 ("❌ Unknown skin: " ++ "nosuch") ∧
    generateCmd "wezterm" "toString" = CliOutcome.err 1 "TypeError" ∧
    previewCmd "toString" none = CliOutcome.err 1 "TypeError" :=
  ⟨(cli_error_messages.1 "emacs" "phosphor" (by decide)).1,
   (cli_error_messages.2.1 "wezterm" "nosuch" (by decide) rfl).1,
   cli_error_messages.2.2.1 "nosuch" none rfl,
   (cli_error_messages.2.2.2.1 "wezterm" "toString" (by decide) rfl).1,
   cli_error_messages.2.2.2.2.1 "toString" none rfl⟩

/-- C8: every effect of every catalog preset has an intensity inside the
closed interval `[0, 1]` (its parameter map sends parameter names to
numbers by the very shape of `VisualEffect`). -/
theorem preset_effect_intensity_bounds :
    ∀ s ∈ allPresetSkins, ∀ e ∈ s.effects,
      0 ≤ e.intensity ∧ e.intensity ≤ 1 := by
  intro s hs
  simp only [allPresetSkins, List.mem_cons, List.not_mem_nil, or_false] at hs
  rcases hs with rfl | rfl | rfl | rfl | rfl | rfl <;>
    · intro e he
      fin_cases he <;> constructor <;> norm_num

theorem preset_effect_intensity_bounds_witness :
    phosphorSkin ∈ allPresetSkins ∧
    (⟨EffectType.crtScanlines, 0.4, [("lineSpacing", 2)]⟩ : VisualEffect) ∈
      phosphorSkin.effects ∧
    (0 ≤ (⟨EffectType.crtScanlines, 0.4,
        [("lineSpacing", 2)]⟩ : VisualEffect).intensity ∧
      (⟨EffectType.crtScanlines, 0.4,
        [("lineSpacing", 2)]⟩ : VisualEffect).intensity ≤ 1) :=
  ⟨List.mem_cons_self _ _, List.mem_cons_self _ _,
   preset_effect_intensity_bounds phosphorSkin (List.mem_cons_self _ _) _
     (List.mem_cons_self _ _)⟩

/-- C9: a partial input whose `name` is the empty string (or is absent) is
not preserved — `createSkin` replaces it with `'Default'`, because the
empty string is falsy under the JavaScript `||`. -/
theorem createSkin_empty_name_default (c : PartialSkinConfig)
    (h : c.name = some "" ∨ c.name = none) :
    (createSkin c).name = "Default" := by
  rcases h with h | h <;> simp [createSkin, h]

theorem createSkin_empty_name_default_witness :
    (createSkin ⟨some "", none, none, none⟩).name = "Default" :=
  createSkin_empty_name_default _ (Or.inl rfl)

/-- C10: for every catalog preset and every `--terminal` value whose
lowercase form is none of `wezterm`, `alacritty`, `windows-terminal`, the
`preview` command performs no membership check and prints the Kitty
adapter's output for that skin. -/
theorem preview_unknown_terminal_fallthrough :
    ∀ k ∈ presetKeys, ∀ t : String,
      strToLower t ∉ (["wezterm", "alacritty", "windows-terminal"] : List String) →
      ∃ s, lookupPreset k = PresetLookup.producer s ∧
        previewCmd k (some t) =
          CliOutcome.ok (previewSummary k s ++ previewHeader t ++ kittyBody s) := by
  intro k hk t ht
  simp only [List.mem_cons, List.not_mem_nil, or_false, not_or] at ht
  obtain ⟨h1, h2, h3⟩ := ht
  simp only [presetKeys, List.mem_cons, List.not_mem_nil, or_false] at hk
  rcases hk with rfl | rfl | rfl | rfl | rfl | rfl
  · exact ⟨phosphorSkin, rfl,
      previewCmd_unknown_terminal _ _ _ rfl (by decide) h1 h2 h3⟩
  · exact ⟨amberSkin, rfl,
      previewCmd_unknown_terminal _ _ _ rfl (by decide) h1 h2 h3⟩
  · exact ⟨lcdSkin, rfl,
      previewCmd_unknown_terminal _ _ _ rfl (by decide) h1 h2 h3⟩
  · exact ⟨cyberSkin, rfl,
      previewCmd_unknown_terminal _ _ _ rfl (by decide) h1 h2 h3⟩
  · exact ⟨terminalSkin, rfl,
      previewCmd_unknown_terminal _ _ _ rfl (by decide) h1 h2 h3⟩
  · exact ⟨puncoreSkin, rfl,
      previewCmd_unknown_terminal _ _ _ rfl (by decide) h1 h2 h3⟩

theorem preview_unknown_terminal_fallthrough_witness :
    ∃ s, lookupPreset "phosphor" = PresetLookup.producer s ∧
      previewCmd "phosphor" (some "emacs") =
        CliOutcome.ok (previewSummary "phosphor" s ++ previewHeader "emacs" ++
          kittyBody s) :=
  preview_unknown_terminal_fallthrough "phosphor" (by decide) "emacs" (by decide)

end RetroSkins
